import Mathlib

/-!
Verification of the drag-and-drop element layer (`drag_and_drop.cpp`) of the
elements GUI library. The C++ classes `drop_base`, `drop_box_base`,
`drop_inserter_element`, `drag_image_element` and `draggable_element` are
shallowly embedded: element state becomes a structure, each member function
becomes a pure function from state (plus the collaborators it queries) to new
state together with a record of the observable effects it issued (view refresh
requests, scroll requests, callback invocations, overlay operations).
Coordinates are modelled as rationals.
-/

namespace Elements

/-- Mirror of `cursor_tracking` (enum: entering / hovering / leaving). -/
inductive cursor_tracking where
  | entering
  | hovering
  | leaving
deriving DecidableEq, Repr

/-- A point, as in `point {x, y}` with rational coordinates standing in for
the source's floats. -/
structure point where
  x : ℚ
  y : ℚ
deriving DecidableEq, Repr

/-- A rectangle, as in `rect {left, top, right, bottom}`. -/
structure rect where
  left : ℚ
  top : ℚ
  right : ℚ
  bottom : ℚ
deriving DecidableEq, Repr

/-- `rect::height()` = `bottom - top`. -/
def rect.height (r : rect) : ℚ := r.bottom - r.top

/-- `rect::move(dx, dy)`: translate all four edges. -/
def rect.move (r : rect) (dx dy : ℚ) : rect :=
  ⟨r.left + dx, r.top + dy, r.right + dx, r.bottom + dy⟩

/-- `rect::inset(dx, dy)`: shrink (or with negative arguments grow) the
rectangle on each side. -/
def rect.inset (r : rect) (dx dy : ℚ) : rect :=
  ⟨r.left + dx, r.top + dy, r.right - dx, r.bottom - dy⟩

/-- The payload part of `drop_info` that the drop logic inspects: the key set
of the `payload` map (content-type identifiers) and the cursor position
`where`. -/
structure drop_info where
  dataKeys : List String
  whereX : ℚ
  whereY : ℚ
deriving DecidableEq, Repr

/-- State of `drop_base`: the registered mime-type set and the `_is_tracking`
flag. -/
structure drop_base where
  mime_types : List String
  is_tracking : Bool
deriving DecidableEq, Repr

/-- The admission test of `drop_base::track_drop`:
`std::any_of(_mime_types, ..., item ∈ info.data)` — does any registered mime
type occur among the payload's keys? -/
def matchesPayload (mts : List String) (keys : List String) : Bool :=
  mts.any (fun item => keys.contains item)

/-- `drop_base::track_drop(ctx, info, status)`. Returns the new state and the
number of `ctx.view.refresh` calls issued. Returns early when no registered
mime type is among the payload keys; otherwise sets `_is_tracking` to
`status != leaving` and refreshes only when the flag actually changes. -/
def drop_base.track_drop (s : drop_base) (info : drop_info)
    (status : cursor_tracking) : drop_base × Nat :=
  if !matchesPayload s.mime_types info.dataKeys then (s, 0)
  else
    let new_is_tracking : Bool := status != cursor_tracking.leaving
    if new_is_tracking != s.is_tracking then
      ({ s with is_tracking := new_is_tracking }, 1)
    else (s, 0)

/-- `drop_base::drop(ctx, info)`: unconditionally clears `_is_tracking` and
returns false. -/
def drop_base.drop (s : drop_base) : drop_base × Bool :=
  ({ s with is_tracking := false }, false)

/-- `drop_box_base::drop(ctx, info)`: calls the base `drop` (ignoring its
result), invokes the `on_drop` acceptance callback, requests one refresh and
returns the callback's verdict. Result: (new state, returned bool, number of
refresh requests). -/
def drop_box_base.drop (s : drop_base) (on_drop : drop_info → Bool)
    (info : drop_info) : drop_base × Bool × Nat :=
  let s1 := (drop_base.drop s).1
  (s1, on_drop info, 1)

/-- State of `drop_inserter_element`: the inherited `drop_base` state plus
`_insertion_pos` (−1 = invalid). -/
structure drop_inserter_element where
  base : drop_base
  insertion_pos : ℤ
deriving DecidableEq, Repr

/-- `drop_inserter_element::track_drop`: delegates to the base class, then —
whenever the element is tracking after that — scrolls a 20-unit box around
`info.where` into view and requests one more refresh. Returns the new state,
the total number of refresh requests, and the `scroll_into_view` rectangle if
one was issued. -/
def drop_inserter_element.track_drop (s : drop_inserter_element)
    (info : drop_info) (status : cursor_tracking) :
    drop_inserter_element × Nat × Option rect :=
  let p := drop_base.track_drop s.base info status
  let s1 : drop_inserter_element := { s with base := p.1 }
  if p.1.is_tracking then
    (s1, p.2 + 1,
     some ⟨info.whereX - 20, info.whereY - 20, info.whereX + 20, info.whereY + 20⟩)
  else (s1, p.2, none)

/-- `drop_inserter_element::drop`: base `drop` first (clearing
`_is_tracking`), then, only when `_insertion_pos >= 0`, invokes
`on_drop(info, _insertion_pos)`, refreshes, resets `_insertion_pos` to −1 and
returns the callback's verdict; otherwise returns false without invoking the
callback. Result fields: new state, returned bool, refresh count, whether the
acceptance callback was invoked. -/
structure inserter_drop_result where
  state : drop_inserter_element
  result : Bool
  refreshes : Nat
  callbackInvoked : Bool
deriving DecidableEq, Repr

def drop_inserter_element.drop (s : drop_inserter_element)
    (on_drop : drop_info → ℤ → Bool) (info : drop_info) : inserter_drop_result :=
  let s1 : drop_inserter_element := { s with base := (drop_base.drop s.base).1 }
  if 0 ≤ s1.insertion_pos then
    ⟨{ s1 with insertion_pos := -1 }, on_drop info s1.insertion_pos, 1, true⟩
  else ⟨s1, false, 0, false⟩

/-- The hit information returned by `composite_base::hit_element`: the hit
child's index and bounds (we model only the case where an element was hit;
`none` stands for a null `element_ptr`). -/
structure hit_info where
  index : ℕ
  bounds : rect
deriving DecidableEq, Repr

/-- `drop_inserter_element::draw`, restricted to its observable logic: when
tracking and a composite subject is found, either (children present and one is
hit) compare the cursor's y against the hit child's vertical midpoint
`top + height/2` — strictly above inserts before (`index`), at or below
inserts after (`index+1`) — and draw the indicator line across the child's
bounds at the child's top resp. bottom edge; or (no children) set
`_insertion_pos` to 0 and draw the line along the composite context's top
edge. Returns the new state and the indicator line's endpoints, if drawn. -/
def drop_inserter_element.draw (s : drop_inserter_element)
    (compositePresent : Bool) (numChildren : ℕ) (hit : Option hit_info)
    (cursor : point) (compositeBounds : rect) :
    drop_inserter_element × Option (point × point) :=
  if s.base.is_tracking && compositePresent then
    if numChildren ≠ 0 then
      match hit with
      | some h =>
        let before : Bool := decide (cursor.y < h.bounds.top + h.bounds.height / 2)
        let pos : ℚ := if before then h.bounds.top else h.bounds.bottom
        ({ s with insertion_pos := if before then (h.index : ℤ) else (h.index : ℤ) + 1 },
         some (⟨h.bounds.left, pos⟩, ⟨h.bounds.right, pos⟩))
      | none => (s, none)
    else
      ({ s with insertion_pos := 0 },
       some (⟨compositeBounds.left, compositeBounds.top⟩,
             ⟨compositeBounds.right, compositeBounds.top⟩))
  else (s, none)

/-- Modelled from the spec: the `selection_list_element` coordinator's state
(its implementation is outside this translation unit). We keep only its
selection, an ordered set of list indices; indices are integers since
`update_selection` receives the (int-typed) insertion position. -/
structure selection_list_element where
  selection : Finset ℤ
deriving DecidableEq

/-- Modelled from the spec: `update_selection(lo, hi)` makes the selection the
contiguous range `lo .. hi`. -/
def selection_list_element.update_selection (_s : selection_list_element)
    (lo hi : ℤ) : selection_list_element :=
  ⟨Finset.Icc lo hi⟩

/-- Modelled from the spec: `select_none()` clears the selection. -/
def selection_list_element.select_none (_s : selection_list_element) :
    selection_list_element :=
  ⟨∅⟩

/-- Result of `drop_inserter_element::move`: the (unchanged) inserter state,
the coordinator after any `update_selection`, whether the subject list's
`move` was invoked, and the arguments passed to the `on_move` callback (if it
was invoked). -/
structure move_result where
  state : drop_inserter_element
  coord : Option selection_list_element
  listMoveInvoked : Bool
  onMoveArgs : Option (ℤ × List ℕ)
deriving DecidableEq

/-- `drop_inserter_element::move(indices)`: only when `_insertion_pos >= 0`,
moves the subject list (if a `list` subject is found), fires `on_move`, and —
if a `selection_list_element` subject is found — calls
`update_selection(_insertion_pos, _insertion_pos + indices.size() - 1)`.
`listPresent` models whether `find_subject<list*>` succeeds and `coord`
whether (and with what state) `find_subject<selection_list_element*>`
succeeds. -/
def drop_inserter_element.move (s : drop_inserter_element) (listPresent : Bool)
    (coord : Option selection_list_element) (indices : List ℕ) : move_result :=
  if 0 ≤ s.insertion_pos then
    { state := s
      coord := coord.map (fun c =>
        c.update_selection s.insertion_pos
          (s.insertion_pos + (indices.length : ℤ) - 1))
      listMoveInvoked := listPresent
      onMoveArgs := some (s.insertion_pos, indices) }
  else ⟨s, coord, false, none⟩

/-- Result of `drop_inserter_element::erase`: coordinator after any
`select_none`, whether the subject list's `erase` ran, and the `on_erase`
callback's argument (if invoked). -/
structure erase_result where
  coord : Option selection_list_element
  listEraseInvoked : Bool
  onEraseArgs : Option (List ℕ)
deriving DecidableEq

/-- `drop_inserter_element::erase(indices)`: everything is guarded by the
subject `list` lookup; when it succeeds the list's `erase` runs, `on_erase`
fires, and — if a coordinator subject is found — `select_none()` empties the
selection, whatever `indices` is. -/
def drop_inserter_element.erase (_s : drop_inserter_element)
    (listPresent : Bool) (coord : Option selection_list_element)
    (indices : List ℕ) : erase_result :=
  if listPresent then
    ⟨coord.map selection_list_element.select_none, true, some indices⟩
  else ⟨coord, false, none⟩

/-! ### The drag image (`drag_image_element`) -/

/-- `item_offset` constant. -/
def item_offset : ℚ := 10

/-- `max_boxes` constant. -/
def max_boxes : ℕ := 20

/-- The number of ghost boxes chosen in `draggable_element::begin_tracking`:
`std::min(selection.size(), max_boxes)`. -/
def num_boxes (selectionSize : ℕ) : ℕ := min selectionSize max_boxes

/-- One ghost box of the drag image: its rounded-rect bounds and fill
opacity. -/
structure ghost_box where
  bounds : rect
  opacity : ℚ
deriving DecidableEq, Repr

/-- The loop body of `drag_image_element::draw`: starting from bounds `b` and
opacity `op`, emit one box per iteration, then multiply the opacity by 0.6
and move the bounds by (+10, +10). -/
def dragImageBoxes : ℕ → rect → ℚ → List ghost_box
  | 0, _, _ => []
  | n + 1, b, op => ⟨b, op⟩ :: dragImageBoxes n (b.move 10 10) (op * (3/5))

/-- `drag_image_element::draw`: inset `ctx.bounds` by (−8, −2), shave
`item_offset * _num_boxes` off the right and bottom, and emit `_num_boxes`
boxes starting at opacity 0.6. -/
def drag_image_element.draw (nb : ℕ) (ctxBounds : rect) : List ghost_box :=
  let b0 := ctxBounds.inset (-8) (-2)
  let b1 : rect :=
    { b0 with
      right := b0.right - item_offset * (nb : ℚ)
      bottom := b0.bottom - item_offset * (nb : ℚ) }
  dragImageBoxes nb b1 (3/5)

/-! ### `draggable_element` -/

/-- Mirror of `key_action` (we need press and repeat; everything else is
lumped into `other`). -/
inductive key_action where
  | press
  | rep
  | other
deriving DecidableEq, Repr

/-- Mirror of `key_code` (we need escape, backspace and delete; everything
else is lumped into `other`). -/
inductive key_code where
  | escape
  | backspace
  | del
  | other
deriving DecidableEq, Repr

/-- Observable outcome of `draggable_element::key`: the returned handled
flag, whether the drag image was removed from the view and its reference
reset, whether `escape_tracking` ran, whether a `leaving` `track_drop`
notification went to the drop-inserter ancestor, and the indices passed to
`drop_inserter_element::erase` (if it was invoked). -/
structure key_result where
  handled : Bool
  overlayRemovedAndReset : Bool
  escapeTrackingCalled : Bool
  leavingNotified : Bool
  erasedIndices : Option (List ℕ)
deriving DecidableEq, Repr

/-- The all-no-op `key` outcome (`return false`, nothing happened). -/
def key_result.noop : key_result := ⟨false, false, false, false, none⟩

/-- `draggable_element::key(ctx, k)`. `diPresent` models whether
`find_parent<drop_inserter_element*>` finds an ancestor; `selection` models
`find_parent<selection_list_element*>` (none = not found) together with its
`get_selection()` result. On escape (press/repeat): removes and resets the
drag image, calls `escape_tracking`, notifies the inserter ancestor with
`leaving` (if present), and still returns false. On backspace/delete: erases
the selection and returns true only when both ancestors are found and the
selection is non-empty. Everything else returns false with no effect. -/
def draggable_element.key (action : key_action) (key : key_code)
    (diPresent : Bool) (selection : Option (List ℕ)) : key_result :=
  if action = key_action.press ∨ action = key_action.rep then
    match key with
    | key_code.escape => ⟨false, true, true, diPresent, none⟩
    | key_code.backspace | key_code.del =>
      if diPresent then
        match selection with
        | some idxs =>
          if idxs.length ≠ 0 then ⟨true, false, false, false, some idxs⟩
          else key_result.noop
        | none => key_result.noop
      else key_result.noop
    | key_code.other => key_result.noop
  else key_result.noop

/-- The drag classification of `draggable_element::end_tracking`:
`abs(distance.x) > 10 || abs(distance.y) > 10`. -/
def maybe_dragged (dx dy : ℚ) : Bool :=
  decide (|dx| > 10) || decide (|dy| > 10)

/-- Observable outcome of `draggable_element::end_tracking`: the final
`processed` flag, whether the overlay was removed (and the drag-image
reference reset), whether a `leaving` notification was sent to the
drop-inserter ancestor, and the indices handed to
`drop_inserter_element::move` (if a move was attempted). -/
structure end_tracking_result where
  processed : Bool
  overlayRemovedAndReset : Bool
  leavingNotified : Bool
  movedIndices : Option (List ℕ)
deriving DecidableEq, Repr

/-- `draggable_element::end_tracking(ctx, track_info)`. `modifiersBlocked`
models `track_info.modifiers & (mod_shift | mod_action)`; `hasDragImage`
models whether the `_drag_image` reference is non-null; `dx`, `dy` are
`track_info.distance()`; `diPresent` and `selection` model the two
`find_parent` lookups. `processed` starts false; with blocking modifiers, or
with no drag image, nothing further happens. Otherwise the overlay is removed
and reset, the inserter ancestor (if any) is notified `leaving`, and only
when the gesture was a drag and both ancestors exist with a non-empty
selection is `move` invoked and `processed` set. -/
def draggable_element.end_tracking (modifiersBlocked hasDragImage : Bool)
    (dx dy : ℚ) (diPresent : Bool) (selection : Option (List ℕ)) :
    end_tracking_result :=
  if modifiersBlocked then ⟨false, false, false, none⟩
  else if hasDragImage then
    if maybe_dragged dx dy && diPresent then
      match selection with
      | some idxs =>
        if idxs.length ≠ 0 then ⟨true, true, diPresent, some idxs⟩
        else ⟨false, true, diPresent, none⟩
      | none => ⟨false, true, diPresent, none⟩
    else ⟨false, true, diPresent, none⟩
  else ⟨false, false, false, none⟩

/-! ### Concrete inputs used by counterexamples -/

/-- A drop target accepting mime type "a" that is already tracking. -/
def cexTarget : drop_base := ⟨["a"], true⟩

/-- A payload carrying the single key "a", cursor at the origin. -/
def cexInfo : drop_info := ⟨["a"], 0, 0⟩

/-- A drop inserter already tracking, accepting mime type "a". -/
def cexInserter : drop_inserter_element := ⟨⟨["a"], true⟩, -1⟩

/-! ### C1 — admission gate -/

/-- C1 counterexample: the claim "`track_drop` changes `is_tracking` iff the
payload's key-set intersects the accepted mime-type set" fails on a target
that is already tracking: with the matching payload `cexInfo` and status
`hovering`, the intersection is non-empty yet `is_tracking` does not change
(it stays true). -/
theorem C1_counterexample :
    ¬ (((cexTarget.track_drop cexInfo cursor_tracking.hovering).1.is_tracking
          ≠ cexTarget.is_tracking)
        ↔ matchesPayload cexTarget.mime_types cexInfo.dataKeys = true) := by
  decide

/-- C1 (amended): `track_drop` changes `is_tracking` only if the payload's
key-set intersects the accepted mime-type set; with no intersection the whole
state and the refresh count are unchanged; with an intersection,
`is_tracking` is set to `status ≠ leaving` (so it changes exactly when that
value differs from the current flag). -/
theorem C1_admission_gate (s : drop_base) (info : drop_info)
    (status : cursor_tracking) :
    ((s.track_drop info status).1.is_tracking ≠ s.is_tracking →
      matchesPayload s.mime_types info.dataKeys = true) ∧
    (matchesPayload s.mime_types info.dataKeys = false →
      (s.track_drop info status).1 = s ∧ (s.track_drop info status).2 = 0) ∧
    (matchesPayload s.mime_types info.dataKeys = true →
      (s.track_drop info status).1.is_tracking
        = (status != cursor_tracking.leaving)) := by
  unfold drop_base.track_drop
  cases hm : matchesPayload s.mime_types info.dataKeys
  · simp [hm]
  · simp only [hm, Bool.not_true, Bool.false_eq_true, if_false]
    refine ⟨?_, by simp, ?_⟩
    · intro _; trivial
    · intro _
      by_cases hne : (status != cursor_tracking.leaving) != s.is_tracking
      · simp [hne]
      · simp only [hne, if_false]
        rw [Bool.not_eq_true, bne_eq_false_iff_eq] at hne
        exact hne.symm

/-- Witness for C1: a non-matching payload leaves an idle target unchanged,
and a matching `entering` payload sets its `is_tracking`. -/
theorem C1_admission_gate_witness :
    ((⟨["a"], false⟩ : drop_base).track_drop ⟨["b"], 0, 0⟩
        cursor_tracking.entering).1 = ⟨["a"], false⟩ ∧
    ((⟨["a"], false⟩ : drop_base).track_drop ⟨["a"], 0, 0⟩
        cursor_tracking.entering).1.is_tracking = true := by
  constructor
  · exact ((C1_admission_gate ⟨["a"], false⟩ ⟨["b"], 0, 0⟩
      cursor_tracking.entering).2.1 (by decide)).1
  · exact ((C1_admission_gate ⟨["a"], false⟩ ⟨["a"], 0, 0⟩
      cursor_tracking.entering).2.2 (by decide)).trans (by decide)

/-! ### C2 — edge-triggered repaint -/

/-- C2 counterexample: on `drop_inserter_element`, a `track_drop` call with a
matching payload that leaves the tracking status unchanged (already tracking,
status `hovering`) still issues a repaint request — the claim that every drop
target is edge-triggered fails for the inserter. -/
theorem C2_counterexample :
    (cexInserter.track_drop cexInfo cursor_tracking.hovering).1.base.is_tracking
        = cexInserter.base.is_tracking ∧
    matchesPayload cexInserter.base.mime_types cexInfo.dataKeys = true ∧
    (cexInserter.track_drop cexInfo cursor_tracking.hovering).2.1 = 1 := by
  decide

/-- C2 (amended): `drop_base::track_drop` is edge-triggered — with a matching
payload it refreshes exactly once per flip of `is_tracking` (1 if
`status ≠ leaving` differs from the current flag, else 0), and an immediately
repeated identical call refreshes 0 times. `drop_inserter_element::track_drop`,
however, adds one further refresh on every call after which the element is
tracking (to follow the cursor with `scroll_into_view`), so repeated hovering
calls on it do issue additional repaint requests. -/
theorem C2_edge_trigger (s : drop_base) (ins : drop_inserter_element)
    (info : drop_info) (status : cursor_tracking)
    (h : matchesPayload s.mime_types info.dataKeys = true) :
    ((s.track_drop info status).2
        = if (status != cursor_tracking.leaving) ≠ s.is_tracking then 1 else 0) ∧
    (((s.track_drop info status).1.track_drop info status).2 = 0) ∧
    ((ins.track_drop info status).2.1
        = (ins.base.track_drop info status).2
          + (if (ins.base.track_drop info status).1.is_tracking then 1 else 0)) := by
  refine ⟨?_, ?_, ?_⟩
  · unfold drop_base.track_drop
    simp only [h, Bool.not_true, Bool.false_eq_true, if_false]
    by_cases hne : (status != cursor_tracking.leaving) ≠ s.is_tracking
    · rw [if_pos hne, if_pos (bne_iff_ne.mpr hne)]
    · rw [if_neg hne, if_neg]
      simp only [bne_iff_ne]
      exact hne
  · unfold drop_base.track_drop
    simp only [h, Bool.not_true, Bool.false_eq_true, if_false]
    by_cases hne : (status != cursor_tracking.leaving) != s.is_tracking
    · simp [hne, h]
    · simp only [hne, if_false, h, Bool.not_true, Bool.false_eq_true]
  · unfold drop_inserter_element.track_drop
    by_cases ht : (drop_base.track_drop ins.base info status).1.is_tracking
    · simp [ht]
    · simp [ht]

/-- Witness for C2: a drop-base target flipping from idle refreshes once, a
second identical call refreshes zero times, while the inserter above
(`cexInserter`, already tracking) adds its per-call refresh. -/
theorem C2_edge_trigger_witness :
    ((⟨["a"], false⟩ : drop_base).track_drop cexInfo
        cursor_tracking.hovering).2 = 1 ∧
    ((((⟨["a"], false⟩ : drop_base).track_drop cexInfo
        cursor_tracking.hovering).1).track_drop cexInfo
        cursor_tracking.hovering).2 = 0 ∧
    (cexInserter.track_drop cexInfo cursor_tracking.hovering).2.1 = 0 + 1 := by
  have h := C2_edge_trigger ⟨["a"], false⟩ cexInserter cexInfo
    cursor_tracking.hovering (by decide)
  refine ⟨h.1.trans (by decide), h.2.1, h.2.2.trans (by decide)⟩

/-! ### C3 — click vs drag classification -/

/-- C3: `end_tracking` classifies a gesture as a drag exactly when the
distance from the start strictly exceeds 10 on some axis; whenever a list
move is attempted the distance exceeded 10 on some axis, and when both axes
are at most 10 (the boundary value 10 included) the gesture is a click: no
move is attempted and `processed` stays false. -/
theorem C3_click_vs_drag (mb hdi di : Bool) (sel : Option (List ℕ))
    (dx dy : ℚ) :
    (maybe_dragged dx dy = true ↔ (10 < |dx| ∨ 10 < |dy|)) ∧
    ((draggable_element.end_tracking mb hdi dx dy di sel).movedIndices.isSome
        = true → 10 < |dx| ∨ 10 < |dy|) ∧
    ((|dx| ≤ 10 ∧ |dy| ≤ 10) →
      (draggable_element.end_tracking mb hdi dx dy di sel).movedIndices = none ∧
      (draggable_element.end_tracking mb hdi dx dy di sel).processed = false) := by
  have hiff : maybe_dragged dx dy = true ↔ (10 < |dx| ∨ 10 < |dy|) := by
    simp [maybe_dragged]
  refine ⟨hiff, ?_, ?_⟩
  · intro hmv
    unfold draggable_element.end_tracking at hmv
    cases mb
    · simp only [Bool.false_eq_true, if_false] at hmv
      cases hdi
      · simp at hmv
      · simp only [if_true] at hmv
        by_cases hd : maybe_dragged dx dy = true
        · exact hiff.mp hd
        · simp [hd] at hmv
    · simp at hmv
  · intro ⟨h1, h2⟩
    have hnd : maybe_dragged dx dy = false := by
      rw [Bool.eq_false_iff, Ne, hiff]
      push_neg
      exact ⟨h1, h2⟩
    unfold draggable_element.end_tracking
    cases mb
    · cases hdi
      · simp
      · simp [hnd]
    · simp

/-- Witness for C3: at the exact boundary distance (10, 10) with a drag image,
an inserter ancestor and a non-empty selection, no move is attempted; and a
distance of 11 on one axis classifies as a drag. -/
theorem C3_click_vs_drag_witness :
    (draggable_element.end_tracking false true 10 10 true
        (some [0])).movedIndices = none ∧
    maybe_dragged 11 0 = true := by
  have h10 : |(10 : ℚ)| ≤ 10 := le_of_eq (abs_of_nonneg (by norm_num))
  refine ⟨((C3_click_vs_drag false true true (some [0]) 10 10).2.2
    ⟨h10, h10⟩).1, ?_⟩
  exact (C3_click_vs_drag false true true (some [0]) 11 0).1.mpr
    (Or.inl (by rw [abs_of_nonneg (by norm_num : (0 : ℚ) ≤ 11)]; norm_num))

/-! ### C4 — insertion-index computation -/

/-- C4: during a tracked draw pass with a composite subject, if a child is
hit and the cursor's y is strictly above the child's vertical midpoint
(`top + height/2`) the new `insertion_pos` is the child's index; at or below
the midpoint it is index + 1; with zero children `insertion_pos` is set to 0
and the indicator line runs along the composite bounds' top edge. -/
theorem C4_insertion_index (s : drop_inserter_element) (n : ℕ) (h : hit_info)
    (cursor : point) (cb : rect) (htr : s.base.is_tracking = true) :
    (n ≠ 0 → cursor.y < h.bounds.top + h.bounds.height / 2 →
      (s.draw true n (some h) cursor cb).1.insertion_pos = (h.index : ℤ)) ∧
    (n ≠ 0 → h.bounds.top + h.bounds.height / 2 ≤ cursor.y →
      (s.draw true n (some h) cursor cb).1.insertion_pos = (h.index : ℤ) + 1) ∧
    ((s.draw true 0 (some h) cursor cb).1.insertion_pos = 0 ∧
      (s.draw true 0 (some h) cursor cb).2
        = some (⟨cb.left, cb.top⟩, ⟨cb.right, cb.top⟩)) := by
  unfold drop_inserter_element.draw
  simp only [htr, Bool.and_self, if_true]
  refine ⟨?_, ?_, ?_⟩
  · intro hn hy
    simp [hn, hy]
  · intro hn hy
    simp [hn, not_lt.mpr hy]
  · simp

/-- Witness for C4: a single child spanning y ∈ [0, 20] at index 0; cursor at
y = 5 (above the midpoint 10) inserts at 0, cursor at y = 10 (exactly the
midpoint) inserts at 1, and an empty container yields position 0 with the
line at the container's top. -/
theorem C4_insertion_index_witness :
    ((⟨⟨["a"], true⟩, -1⟩ : drop_inserter_element).draw true 1
        (some ⟨0, ⟨0, 0, 100, 20⟩⟩) ⟨50, 5⟩ ⟨0, 0, 100, 20⟩).1.insertion_pos
      = 0 ∧
    ((⟨⟨["a"], true⟩, -1⟩ : drop_inserter_element).draw true 1
        (some ⟨0, ⟨0, 0, 100, 20⟩⟩) ⟨50, 10⟩ ⟨0, 0, 100, 20⟩).1.insertion_pos
      = 1 ∧
    ((⟨⟨["a"], true⟩, -1⟩ : drop_inserter_element).draw true 0
        (some ⟨0, ⟨0, 0, 100, 20⟩⟩) ⟨50, 5⟩ ⟨0, 0, 100, 20⟩).1.insertion_pos
      = 0 := by
  have h1 := C4_insertion_index ⟨⟨["a"], true⟩, -1⟩ 1 ⟨0, ⟨0, 0, 100, 20⟩⟩
    ⟨50, 5⟩ ⟨0, 0, 100, 20⟩ rfl
  have h2 := C4_insertion_index ⟨⟨["a"], true⟩, -1⟩ 1 ⟨0, ⟨0, 0, 100, 20⟩⟩
    ⟨50, 10⟩ ⟨0, 0, 100, 20⟩ rfl
  have h3 := C4_insertion_index ⟨⟨["a"], true⟩, -1⟩ 0 ⟨0, ⟨0, 0, 100, 20⟩⟩
    ⟨50, 5⟩ ⟨0, 0, 100, 20⟩ rfl
  refine ⟨?_, ?_, h3.2.2.1⟩
  · have := h1.1 (by decide) (by norm_num [rect.height])
    simpa using this
  · have := h2.2.1 (by decide) (by norm_num [rect.height])
    simpa using this

/-! ### C5 — selection consistency after move -/

/-- C5: when `move` runs with a valid insertion position `P ≥ 0` and a
non-empty index set of size `N`, and a selection-list coordinator is found,
the coordinator's selection becomes the contiguous range `[P, P + N - 1]`. -/
theorem C5_selection_after_move (s : drop_inserter_element) (lp : Bool)
    (c : selection_list_element) (indices : List ℕ)
    (h1 : 0 ≤ s.insertion_pos) (_h2 : indices ≠ []) :
    (s.move lp (some c) indices).coord
      = some ⟨Finset.Icc s.insertion_pos
          (s.insertion_pos + (indices.length : ℤ) - 1)⟩ := by
  unfold drop_inserter_element.move
  rw [if_pos h1]
  rfl

/-- Witness for C5: moving the two selected items `[5, 7]` to insertion
position 2 yields the selection `{2, 3}` = `Icc 2 3`. -/
theorem C5_selection_after_move_witness :
    ((⟨⟨["a"], false⟩, 2⟩ : drop_inserter_element).move true
        (some ⟨∅⟩) [5, 7]).coord = some ⟨Finset.Icc 2 3⟩ := by
  have h := C5_selection_after_move ⟨⟨["a"], false⟩, 2⟩ true ⟨∅⟩ [5, 7]
    (by norm_num) (by simp)
  rw [h]
  norm_num

/-! ### C6 — selection consistency after erase -/

/-- C6: whenever `erase` finds its subject list (so the erase happens at all)
and a selection-list coordinator, the coordinator ends with an empty
selection (`select_none`), for every index set argument. -/
theorem C6_erase_clears_selection (s : drop_inserter_element)
    (c : selection_list_element) (indices : List ℕ) :
    (s.erase true (some c) indices).coord = some ⟨∅⟩ ∧
    (s.erase true (some c) indices).listEraseInvoked = true := by
  exact ⟨rfl, rfl⟩

/-! ### C7 — drag-image visual -/

/-- Each box of the drag-image loop in closed form: the i-th box is the
start bounds moved by (10·i, 10·i) with opacity `op · (3/5)^i`. -/
theorem dragImageBoxes_getElem (n : ℕ) (b : rect) (op : ℚ) (i : ℕ)
    (h : i < n) :
    (dragImageBoxes n b op)[i]?
      = some ⟨b.move (10 * i) (10 * i), op * (3 / 5) ^ i⟩ := by
  induction n generalizing b op i with
  | zero => omega
  | succ m ih =>
    cases i with
    | zero =>
      simp only [dragImageBoxes, List.getElem?_cons_zero, Option.some.injEq]
      norm_num [rect.move]
    | succ j =>
      simp only [dragImageBoxes, List.getElem?_cons_succ]
      rw [ih (b.move 10 10) (op * (3 / 5)) j (by omega)]
      simp only [Option.some.injEq, ghost_box.mk.injEq, rect.move,
        rect.mk.injEq]
      push_cast
      refine ⟨⟨by ring, by ring, by ring, by ring⟩, by ring⟩

/-- The loop emits exactly `n` boxes. -/
theorem dragImageBoxes_length (n : ℕ) (b : rect) (op : ℚ) :
    (dragImageBoxes n b op).length = n := by
  induction n generalizing b op with
  | zero => rfl
  | succ m ih => simp [dragImageBoxes, ih]

/-- C7: with selection size S the drag image draws exactly `min S 20` boxes;
the first box has opacity 0.6 (= 3/5), and every subsequent box is the
previous one moved by (+10, +10) with opacity 0.6 times the previous. -/
theorem C7_drag_image (S : ℕ) (cb : rect) :
    (drag_image_element.draw (num_boxes S) cb).length = min S 20 ∧
    (∀ bx, (drag_image_element.draw (num_boxes S) cb)[0]? = some bx →
      bx.opacity = 3 / 5) ∧
    (∀ i bx bx', (drag_image_element.draw (num_boxes S) cb)[i]? = some bx →
      (drag_image_element.draw (num_boxes S) cb)[i + 1]? = some bx' →
      bx'.bounds = bx.bounds.move 10 10 ∧
      bx'.opacity = (3 / 5) * bx.opacity) := by
  unfold drag_image_element.draw
  refine ⟨dragImageBoxes_length _ _ _, ?_, ?_⟩
  · intro bx hbx
    have hlen : 0 < num_boxes S := by
      by_contra hn
      rw [not_lt, Nat.le_zero] at hn
      rw [hn] at hbx
      simp [dragImageBoxes] at hbx
    rw [dragImageBoxes_getElem _ _ _ 0 hlen] at hbx
    have := (Option.some.injEq _ _).mp hbx
    rw [← this]
    norm_num
  · intro i bx bx' hbx hbx'
    have hlen : i + 1 < num_boxes S := by
      by_contra hn
      rw [not_lt] at hn
      rw [List.getElem?_eq_none (by rwa [dragImageBoxes_length])] at hbx'
      exact Option.noConfusion hbx'
    rw [dragImageBoxes_getElem _ _ _ i (by omega)] at hbx
    rw [dragImageBoxes_getElem _ _ _ (i + 1) hlen] at hbx'
    have e1 := (Option.some.injEq _ _).mp hbx
    have e2 := (Option.some.injEq _ _).mp hbx'
    rw [← e1, ← e2]
    constructor
    · simp only [rect.move, rect.mk.injEq]
      push_cast
      refine ⟨by ring, by ring, by ring, by ring⟩
    · push_cast
      ring

/-- Witness for C7: with 3 selected items and a concrete rectangle, the drag
image has 3 boxes, the first at opacity 3/5, the second 3/5 of that. -/
theorem C7_drag_image_witness :
    (drag_image_element.draw (num_boxes 3) ⟨0, 0, 100, 20⟩).length = 3 ∧
    (drag_image_element.draw (num_boxes 3) ⟨0, 0, 100, 20⟩)[0]?
      = some ⟨⟨-8, -2, 78, -8⟩, 3 / 5⟩ ∧
    (3 / 5 : ℚ) = 3 / 5 ∧
    ((⟨⟨-8, -2, 78, -8⟩, 3 / 5⟩ : ghost_box).opacity = 3 / 5) := by
  have h := C7_drag_image 3 ⟨0, 0, 100, 20⟩
  have hb : (drag_image_element.draw (num_boxes 3) ⟨0, 0, 100, 20⟩)[0]?
      = some ⟨⟨-8, -2, 78, -8⟩, 3 / 5⟩ := by
    unfold drag_image_element.draw
    rw [dragImageBoxes_getElem _ _ _ 0 (by decide)]
    norm_num [rect.move, rect.inset, item_offset, num_boxes, max_boxes]
  exact ⟨h.1.trans (by decide), hb, rfl, h.2.1 _ hb⟩

/-! ### C8 — unconditional tracking reset on drop -/

/-- C8: all three `drop` overloads clear `is_tracking` unconditionally, and
the return value reports acceptance: the abstract base returns false, the
drop box returns its callback's verdict, and the inserter — when
`insertion_pos` is valid — returns its callback's verdict at that position
and resets the position to −1, while with an invalid position it returns
false without invoking the callback. -/
theorem C8_drop_reset (s bs : drop_base) (cb1 : drop_info → Bool)
    (ins : drop_inserter_element) (cb2 : drop_info → ℤ → Bool)
    (info : drop_info) :
    ((drop_base.drop s).1.is_tracking = false ∧ (drop_base.drop s).2 = false) ∧
    ((drop_box_base.drop bs cb1 info).1.is_tracking = false ∧
      (drop_box_base.drop bs cb1 info).2.1 = cb1 info) ∧
    ((ins.drop cb2 info).state.base.is_tracking = false ∧
      (0 ≤ ins.insertion_pos →
        (ins.drop cb2 info).result = cb2 info ins.insertion_pos ∧
        (ins.drop cb2 info).state.insertion_pos = -1 ∧
        (ins.drop cb2 info).callbackInvoked = true) ∧
      (ins.insertion_pos < 0 →
        (ins.drop cb2 info).result = false ∧
        (ins.drop cb2 info).callbackInvoked = false ∧
        (ins.drop cb2 info).state.insertion_pos = ins.insertion_pos)) := by
  refine ⟨⟨rfl, rfl⟩, ⟨rfl, rfl⟩, ?_, ?_, ?_⟩
  · unfold drop_inserter_element.drop
    by_cases hp : 0 ≤ ins.insertion_pos
    · rw [if_pos hp]; rfl
    · rw [if_neg hp]; rfl
  · intro hp
    unfold drop_inserter_element.drop
    rw [if_pos hp]
    exact ⟨rfl, rfl, rfl⟩
  · intro hp
    unfold drop_inserter_element.drop
    rw [if_neg (not_le.mpr hp)]
    exact ⟨rfl, rfl, rfl⟩

/-- Witness for C8: a tracking inserter with valid position 1 whose callback
always accepts — after the drop it is no longer tracking, the position is −1
and the result is true; with position −1 the callback is skipped. -/
theorem C8_drop_reset_witness :
    ((⟨⟨["a"], true⟩, 1⟩ : drop_inserter_element).drop
        (fun _ _ => true) cexInfo).state.base.is_tracking = false ∧
    ((⟨⟨["a"], true⟩, 1⟩ : drop_inserter_element).drop
        (fun _ _ => true) cexInfo).state.insertion_pos = -1 ∧
    ((⟨⟨["a"], true⟩, 1⟩ : drop_inserter_element).drop
        (fun _ _ => true) cexInfo).result = true ∧
    ((⟨⟨["a"], true⟩, -1⟩ : drop_inserter_element).drop
        (fun _ _ => true) cexInfo).callbackInvoked = false := by
  have h1 := C8_drop_reset ⟨["a"], true⟩ ⟨["a"], true⟩ (fun _ => true)
    ⟨⟨["a"], true⟩, 1⟩ (fun _ _ => true) cexInfo
  have h2 := C8_drop_reset ⟨["a"], true⟩ ⟨["a"], true⟩ (fun _ => true)
    ⟨⟨["a"], true⟩, -1⟩ (fun _ _ => true) cexInfo
  refine ⟨h1.2.2.1, (h1.2.2.2.1 (by norm_num)).2.1,
    (h1.2.2.2.1 (by norm_num)).1, (h2.2.2.2.2 (by norm_num)).2.1⟩

/-! ### C9 — end-without-begin is safe -/

/-- C9: when no drag image exists, `end_tracking` is a complete no-op for
every modifier state, distance and ancestor configuration: no overlay
removal, no leaving notification, no move, and `processed` stays false. -/
theorem C9_end_without_begin (mb : Bool) (dx dy : ℚ) (di : Bool)
    (sel : Option (List ℕ)) :
    draggable_element.end_tracking mb false dx dy di sel
      = ⟨false, false, false, none⟩ := by
  unfold draggable_element.end_tracking
  cases mb <;> simp

/-! ### C10 — key handling of draggable_element -/

/-- C10: on an escape press or repeat, `key` performs the full cancel
cleanup (removes and resets the drag image, calls `escape_tracking`, and
notifies the inserter ancestor `leaving` exactly when one exists) yet still
returns false; `key` returns true exactly for a backspace/delete press or
repeat with a drop-inserter ancestor, a selection-list ancestor, and a
non-empty selection. -/
theorem C10_key_handling (a : key_action) (k : key_code) (di : Bool)
    (sel : Option (List ℕ)) :
    ((a = key_action.press ∨ a = key_action.rep) →
      draggable_element.key a key_code.escape di sel
        = ⟨false, true, true, di, none⟩) ∧
    ((draggable_element.key a k di sel).handled = true ↔
      ((a = key_action.press ∨ a = key_action.rep) ∧
        (k = key_code.backspace ∨ k = key_code.del) ∧ di = true ∧
        ∃ idxs, sel = some idxs ∧ idxs ≠ [])) := by
  constructor
  · intro ha
    unfold draggable_element.key
    rw [if_pos ha]
  · unfold draggable_element.key
    by_cases ha : a = key_action.press ∨ a = key_action.rep
    · rw [if_pos ha]
      cases k
      · simp [ha, key_result.noop]
      · cases di
        · simp [key_result.noop]
        · cases sel with
          | none => simp [key_result.noop]
          | some idxs =>
            by_cases hi : idxs.length ≠ 0
            · simp only [if_pos hi]
              simp [ha, List.length_eq_zero] at hi ⊢
              exact hi
            · simp only [if_neg hi]
              simp only [Ne, not_not, List.length_eq_zero] at hi
              simp [key_result.noop, hi]
      · cases di
        · simp [key_result.noop]
        · cases sel with
          | none => simp [key_result.noop]
          | some idxs =>
            by_cases hi : idxs.length ≠ 0
            · simp only [if_pos hi]
              simp [ha, List.length_eq_zero] at hi ⊢
              exact hi
            · simp only [if_neg hi]
              simp only [Ne, not_not, List.length_eq_zero] at hi
              simp [key_result.noop, hi]
      · simp [key_result.noop]
    · rw [if_neg ha]
      simp [key_result.noop, ha]

/-- Witness for C10: an escape press with an inserter ancestor cleans up but
reports unhandled; a backspace press with both ancestors and selection `[0]`
reports handled. -/
theorem C10_key_handling_witness :
    draggable_element.key key_action.press key_code.escape true (some [0])
      = ⟨false, true, true, true, none⟩ ∧
    (draggable_element.key key_action.press key_code.backspace true
        (some [0])).handled = true := by
  constructor
  · exact (C10_key_handling key_action.press key_code.escape true
      (some [0])).1 (Or.inl rfl)
  · exact (C10_key_handling key_action.press key_code.backspace true
      (some [0])).2.mpr ⟨Or.inl rfl, Or.inl rfl, rfl, [0], rfl, by simp⟩

end Elements
